import Mathlib

/-!
Shallow embedding of `requests_ftp/ftp.py`: an FTP transport adapter for
the `requests` library.  Pure helpers of the module become Lean functions;
the stateful FTP connection (`ftplib.FTP`) is modelled by an environment
record `FtpEnv` that decides the outcome of each FTP primitive, together
with an explicit trace of the operations issued (`FtpOp`), so that
connection-lifecycle properties (connect/login/close ordering and counts)
are observable.  Python exceptions are modelled by `Except FtpError`.
Python byte/character strings are modelled by `String`.
-/

/-- Python exceptions that the adapter code can raise, one constructor per
distinct exception class: `AuthError` (defined at the bottom of `ftp.py`),
`IndexError` (out-of-range subscript), `KeyError` (missing dict key),
`binascii.Error` from `base64.b64decode`, errors raised by `ftplib`
primitives, and errors raised by the `cgi` multipart parser. -/
inductive FtpError where
  | authError (msg : String)
  | indexError
  | keyError
  | b64DecodeError
  | connError (msg : String)
  | multipartError (msg : String)
  deriving DecidableEq

/-- A dynamically typed Python scalar, as needed for the `status_code`
field of a `requests.Response`: Python lets the adapter store either a
string or an integer there. -/
inductive PyScalar where
  | str (s : String)
  | int (n : Int)
  deriving DecidableEq

/-- Models an in-memory file-like object (`StringIO` / `BytesIO`): the
accumulated contents and the current read/write cursor position. -/
structure Buffer where
  data : String
  pos : Nat
  deriving DecidableEq

/-- Models `BytesIO()` / `StringIO()`: a fresh empty buffer. -/
def Buffer.empty : Buffer := { data := "", pos := 0 }

/-- Models `buf.write(s)`: the handlers only ever append sequentially, so a
write extends the contents and leaves the cursor at the end. -/
def Buffer.write (b : Buffer) (s : String) : Buffer :=
  { data := b.data ++ s, pos := b.data.length + s.length }

/-- Models `buf.seek(0)`: rewind the cursor to the start. -/
def Buffer.seek0 (b : Buffer) : Buffer := { b with pos := 0 }

/-- The request fields that a `requests.Response` echoes back (its
`request` attribute): method, URL, headers and body. -/
structure RequestData where
  method : String
  url : String
  headers : List (String × String)
  body : String

/-- Models a `requests.Response` as populated by `build_response`:
encoding, raw body buffer, url, echoed request and status code.  Python is
dynamically typed, so `status_code` is a `PyScalar`: the adapter assigns
the leading token of the FTP reply string (a string value) to it. -/
structure Response where
  encoding : Option String
  raw : Buffer
  url : String
  request : RequestData
  status_code : PyScalar

/-- Models a `requests.PreparedRequest`: the echoable request data plus
the registered response hooks.  A hook takes the response and returns
either a replacement response or `none` (Python `None`) to keep it. -/
structure Request extends RequestData where
  hooks : List (Response → Option Response)

/-- Accumulating worker for whitespace tokenisation: `acc` holds the
characters of the current token in reverse order. -/
def wsTokensGo (acc : List Char) : List Char → List (List Char)
  | [] => if acc = [] then [] else [acc.reverse]
  | c :: rest =>
    if c.isWhitespace then
      if acc = [] then wsTokensGo [] rest else acc.reverse :: wsTokensGo [] rest
    else wsTokensGo (c :: acc) rest

/-- Models Python `str.split()` with no argument: split on runs of
whitespace, discarding empty pieces. -/
def pySplitWs (s : String) : List String :=
  (wsTokensGo [] s.data).map String.mk

/-- Models Python `str.split(sep)` for a one-character separator: split at
every occurrence, keeping empty pieces (so the result is never empty). -/
def splitOnChar (sep : Char) : List Char → List (List Char)
  | [] => [[]]
  | c :: rest =>
    if c = sep then [] :: splitOnChar sep rest
    else
      match splitOnChar sep rest with
      | [] => [[c]]
      | t :: ts => (c :: t) :: ts

/-- Case-insensitive string comparison, used for header-name lookup. -/
def lowerEqCI (a b : String) : Bool :=
  a.data.map Char.toLower = b.data.map Char.toLower

/-- Models lookup in the case-insensitive header dict of `requests`
(`request.headers.get(k)` / `request.headers[k]`). -/
def headersGet (hs : List (String × String)) (k : String) : Option String :=
  (hs.find? (fun p => lowerEqCI p.1 k)).map (fun p => p.2)

/-- Value of a character in the standard base64 alphabet. -/
def b64CharVal? (c : Char) : Option Nat :=
  if 'A' ≤ c ∧ c ≤ 'Z' then some (c.toNat - 65)
  else if 'a' ≤ c ∧ c ≤ 'z' then some (c.toNat - 97 + 26)
  else if '0' ≤ c ∧ c ≤ '9' then some (c.toNat - 48 + 52)
  else if c = '+' then some 62
  else if c = '/' then some 63
  else none

/-- Decode base64 text four characters at a time into byte values,
accepting `=` padding only in the final quantum; `none` on any input that
is not well-formed base64. -/
def b64DecodeGroups : List Char → Option (List Nat)
  | [] => some []
  | a :: b :: c :: d :: rest =>
    match b64CharVal? a, b64CharVal? b with
    | some va, some vb =>
      if c = '=' ∧ d = '=' ∧ rest = [] then
        some [va * 4 + vb / 16]
      else if d = '=' ∧ rest = [] then
        match b64CharVal? c with
        | some vc => some [va * 4 + vb / 16, (vb % 16) * 16 + vc / 4]
        | none => none
      else
        match b64CharVal? c, b64CharVal? d, b64DecodeGroups rest with
        | some vc, some vd, some tail =>
          some ((va * 4 + vb / 16) :: ((vb % 16) * 16 + vc / 4) ::
                ((vc % 4) * 64 + vd) :: tail)
        | _, _, _ => none
    | _, _ => none
  | _ => none

/-- Models `base64.b64decode` from the Python standard library on
well-formed inputs (length a multiple of four over the standard alphabet,
with optional trailing `=` padding); ill-formed input yields `none`,
standing for the `binascii.Error` Python raises.  The decoded bytes are
rendered as a string, matching the Python 2 byte-string the code works
with. -/
def b64decode (s : String) : Option String :=
  (b64DecodeGroups s.data).map (fun bs => String.mk (bs.map Char.ofNat))

/-- Models `requests.hooks.dispatch_hook` for the `response` key: fold the
registered hooks over the response, replacing it whenever a hook returns a
non-`None` value. -/
def dispatch_hook (hooks : List (Response → Option Response)) (r : Response) :
    Response :=
  hooks.foldl (fun acc h => match h acc with | some r2 => r2 | none => acc) r

/-- Models `FTPAdapter.get_username_password_from_header`: reverse HTTP
Basic auth to recover `(username, password)`.  Absent (or falsy, i.e.
empty) `Authorization` header yields `none`; a first token other than
`Basic` raises `AuthError`; missing tokens or a decoded string without a
colon raise `IndexError`; base64 failures raise the decode error. -/
def FTPAdapter.get_username_password_from_header (request : Request) :
    Except FtpError (Option (String × String)) :=
  match headersGet request.headers "Authorization" with
  | none => .ok none
  | some auth_header =>
    if auth_header = "" then .ok none
    else
      let encoded_components := (pySplitWs auth_header).take 2
      match encoded_components.get? 0 with
      | none => .error .indexError
      | some c0 =>
        if c0 ≠ "Basic" then
          .error (.authError "Invalid form of Authentication used.")
        else
          match encoded_components.get? 1 with
          | none => .error .indexError
          | some encoded =>
            match b64decode encoded with
            | none => .error .b64DecodeError
            | some decoded =>
              let components := (splitOnChar ':' decoded.data).map String.mk
              match components.get? 0 with
              | none => .error .indexError
              | some username =>
                match components.get? 1 with
                | none => .error .indexError
                | some password => .ok (some (username, password))

/-- Result of URL parsing, restricted to the fields the adapter reads
(`netloc`, `path`, `hostname`, `port`). -/
structure UrlParseResult where
  netloc : String
  path : String
  hostname : Option String
  port : Option Nat
  deriving DecidableEq

/-- Models `int(s, 10)` on a digit string: `some` of the value when the
characters are a nonempty run of decimal digits, otherwise `none`
(standing for the `ValueError` Python raises on other inputs). -/
def decDigits? (l : List Char) : Option Nat :=
  if l ≠ [] ∧ l.all Char.isDigit then
    some (l.foldl (fun n c => n * 10 + (c.toNat - 48)) 0)
  else none

/-- Characters of `netloc` after the last `@` (Python
`netloc.rsplit('@', 1)[-1]`), where user-info may hide. -/
def afterLastAt (l : List Char) : List Char :=
  (l.reverse.takeWhile (fun c => c ≠ '@')).reverse

/-- Models `urlparse` from the Python standard library on `ftp://` URLs
that carry no params, query or fragment, and whose netloc contains no
IPv6 bracket syntax (the only shapes this adapter receives): the netloc is
everything between `ftp://` and the first `/`; the path is the rest,
leading `/` included; `hostname` is the part of the netloc after any
user-info and before a `:`, lowercased, or `none` when empty; `port` is
the run between the first and second `:` there, parsed as a decimal
integer. -/
def urlparse_ftp (url : String) : UrlParseResult :=
  match url.data with
  | 'f' :: 't' :: 'p' :: ':' :: '/' :: '/' :: rest =>
    let netloc := rest.takeWhile (fun c => c ≠ '/')
    let pathChars := rest.dropWhile (fun c => c ≠ '/')
    let hp := afterLastAt netloc
    let hostChars := hp.takeWhile (fun c => c ≠ ':')
    let port :=
      match hp.dropWhile (fun c => c ≠ ':') with
      | [] => none
      | _ :: ps => decDigits? (ps.takeWhile (fun c => c ≠ ':'))
    { netloc := String.mk netloc,
      path := String.mk pathChars,
      hostname :=
        if hostChars = [] then none
        else some (String.mk (hostChars.map Char.toLower)),
      port := port }
  | _ => { netloc := "", path := url, hostname := none, port := none }

/-- Models `FTPAdapter.get_host_and_path_from_url`: parse the request URL
and strip one leading `/` from the path.  Subscripting `path[0]` on an
empty path raises `IndexError`, exactly as in Python. -/
def FTPAdapter.get_host_and_path_from_url (request : Request) :
    Except FtpError (Option String × Option Nat × String) :=
  match (urlparse_ftp request.url).path.data with
  | [] => .error .indexError
  | c :: restChars =>
    .ok ((urlparse_ftp request.url).hostname, (urlparse_ftp request.url).port,
      if c = '/' then String.mk restChars else (urlparse_ftp request.url).path)

/-- Models `os.path.split` from the Python standard library (posixpath
flavour): the tail is everything after the last `/`; the head is the part
before it, stripped of trailing slashes unless it consists only of
slashes. -/
def os_path_split (p : String) : String × String :=
  let l := p.data
  let tail := (l.reverse.takeWhile (fun c => c ≠ '/')).reverse
  let head := l.take (l.length - tail.length)
  let head2 :=
    if head ≠ [] ∧ head.any (fun c => c ≠ '/') then
      (head.reverse.dropWhile (fun c => c = '/')).reverse
    else head
  (String.mk head2, String.mk tail)

/-- Models `build_response` from `ftp.py`: fill a `Response` with the
encoding, the raw buffer, the url, the echoed request and the leading
token of the FTP reply string (`code.split()[0]`, raising `IndexError`
when the reply has no token), rewind the raw buffer to the start, then
run the response hooks and return the hook chain's result. -/
def build_response (request : Request) (data : Buffer) (code : String)
    (encoding : Option String) : Except FtpError Response :=
  match (pySplitWs code).get? 0 with
  | none => .error .indexError
  | some tok =>
    let response : Response :=
      { encoding := encoding,
        raw := data,
        url := request.url,
        request := request.toRequestData,
        status_code := .str tok }
    let response := { response with raw := response.raw.seek0 }
    .ok (dispatch_hook request.hooks response)

/-- Models `build_text_response`: a response for textual data, with the
encoding fixed to ascii. -/
def build_text_response (request : Request) (data : Buffer) (code : String) :
    Except FtpError Response :=
  build_response request data code (some "ascii")

/-- Models `build_binary_response`: a response for data of unknown
encoding. -/
def build_binary_response (request : Request) (data : Buffer) (code : String) :
    Except FtpError Response :=
  build_response request data code none

/-- One operation issued on the `ftplib.FTP` connection object, recorded
in the trace of a `send` call. -/
inductive FtpOp where
  | connect (host : Option String) (port : Option Nat) (timeout : Option Nat)
  | login (user pass : String)
  | cwd (path : String)
  | retrbinary (cmd : String)
  | storbinary (cmd : String) (data : String)
  | close
  deriving DecidableEq

/-- True exactly on the `close` operation. -/
def FtpOp.isClose : FtpOp → Bool
  | .close => true
  | _ => false

/-- True exactly on `login` operations. -/
def FtpOp.isLogin : FtpOp → Bool
  | .login _ _ => true
  | _ => false

/-- True exactly on `connect` operations. -/
def FtpOp.isConnect : FtpOp → Bool
  | .connect _ _ _ => true
  | _ => false

/-- Behaviour of the FTP server / `ftplib` library, as seen through the
connection primitives the adapter uses: each field decides whether the
corresponding call succeeds and what it returns.  `retr` yields the chunks
handed to the retrieval callback together with the final reply string;
`stor` yields the reply string. -/
structure FtpEnv where
  connect : Option String → Option Nat → Option Nat → Except FtpError Unit
  login : String → String → Except FtpError Unit
  cwd : String → Except FtpError Unit
  retr : String → Except FtpError (List String × String)
  stor : String → String → Except FtpError String

/-- Models `data_callback_factory(variable)`: the returned callback writes
every chunk it receives into the buffer, so running a retrieval delivers
the chunks to the buffer in order. -/
def runCallbacks (b : Buffer) (chunks : List String) : Buffer :=
  chunks.foldl Buffer.write b

/-- Behaviour of the `cgi` standard-library module as used by
`parse_multipart_files`: `parse_header` splits a `Content-Type` value
into its main value and its parameter dict; `parse_multipart` parses a
multipart body into a dict from field name to list of decoded values (an
error models the `ValueError` the parser can raise). -/
structure CgiEnv where
  parse_header : String → String × List (String × String)
  parse_multipart : String → List (String × String) →
    Except FtpError (List (String × List String))

/-- Models `parse_multipart_files(request)`: read the `Content-Type`
header (`KeyError` when absent), parse the body as multipart with its
parameter dict, pop an item from the resulting dict (`KeyError` when it
is empty; Python 2 `dict.popitem` order is unspecified, the model takes
the first entry), join that item's value chunks and return them in a
fresh buffer rewound to the start. -/
def parse_multipart_files (cgi : CgiEnv) (request : Request) :
    Except FtpError Buffer :=
  match headersGet request.headers "Content-Type" with
  | none => .error .keyError
  | some ct =>
    let pdict := (cgi.parse_header ct).2
    match cgi.parse_multipart request.body pdict with
    | .error e => .error e
    | .ok parts =>
      match parts with
      | [] => .error .keyError
      | (_, filedata) :: _ => .ok { data := String.join filedata, pos := 0 }

/-- Models `FTPAdapter.list`: change to the requested directory, stream
the `LIST` data into a fresh text buffer, build a textual response from
the buffer and the reply, then close the connection.  The returned trace
records the connection operations actually issued: on a failure the
remaining operations — including the close — are never reached, exactly
as in the Python source, which has no try/finally around them. -/
def FTPAdapter.list (env : FtpEnv) (path : String) (request : Request) :
    Except FtpError Response × List FtpOp :=
  match env.cwd path with
  | .error e => (.error e, [.cwd path])
  | .ok _ =>
    match env.retr "LIST" with
    | .error e => (.error e, [.cwd path, .retrbinary "LIST"])
    | .ok (chunks, code) =>
      match build_text_response request (runCallbacks Buffer.empty chunks)
          code with
      | .error e => (.error e, [.cwd path, .retrbinary "LIST"])
      | .ok response =>
        (.ok response, [.cwd path, .retrbinary "LIST", .close])

/-- Models `FTPAdapter.retr`: stream `RETR path` (no directory change —
the full path is the command argument) into a fresh binary buffer, build
a binary response, then close the connection; as in the source, a failure
skips the close. -/
def FTPAdapter.retr (env : FtpEnv) (path : String) (request : Request) :
    Except FtpError Response × List FtpOp :=
  match env.retr ("RETR " ++ path) with
  | .error e => (.error e, [.retrbinary ("RETR " ++ path)])
  | .ok (chunks, code) =>
    match build_binary_response request (runCallbacks Buffer.empty chunks)
        code with
    | .error e => (.error e, [.retrbinary ("RETR " ++ path)])
    | .ok response =>
      (.ok response, [.retrbinary ("RETR " ++ path), .close])

/-- Models `FTPAdapter.stor`: extract the multipart payload, split the
path into directory and filename with `os.path.split`, change to the
directory, store the payload under `STOR filename`, close the connection,
and only then build a binary response around a fresh empty buffer; as in
the source, a failure before the close skips it. -/
def FTPAdapter.stor (env : FtpEnv) (cgi : CgiEnv) (path : String)
    (request : Request) : Except FtpError Response × List FtpOp :=
  match parse_multipart_files cgi request with
  | .error e => (.error e, [])
  | .ok data =>
    match env.cwd (os_path_split path).1 with
    | .error e => (.error e, [.cwd (os_path_split path).1])
    | .ok _ =>
      match env.stor ("STOR " ++ (os_path_split path).2) data.data with
      | .error e =>
        (.error e, [.cwd (os_path_split path).1, .storbinary ("STOR " ++ (os_path_split path).2) data.data])
      | .ok code =>
        match build_binary_response request Buffer.empty code with
        | .error e =>
          (.error e,
           [.cwd (os_path_split path).1, .storbinary ("STOR " ++ (os_path_split path).2) data.data, .close])
        | .ok response =>
          (.ok response,
           [.cwd (os_path_split path).1, .storbinary ("STOR " ++ (os_path_split path).2) data.data, .close])

/-- Models `FTPAdapter.nlst`: like `list`, with the `NLST` command. -/
def FTPAdapter.nlst (env : FtpEnv) (path : String) (request : Request) :
    Except FtpError Response × List FtpOp :=
  match env.cwd path with
  | .error e => (.error e, [.cwd path])
  | .ok _ =>
    match env.retr "NLST" with
    | .error e => (.error e, [.cwd path, .retrbinary "NLST"])
    | .ok (chunks, code) =>
      match build_text_response request (runCallbacks Buffer.empty chunks)
          code with
      | .error e => (.error e, [.cwd path, .retrbinary "NLST"])
      | .ok response =>
        (.ok response, [.cwd path, .retrbinary "NLST", .close])

/-- Models the `func_table` lookup and call in `FTPAdapter.send`: the
dictionary built in `__init__` maps the four supported uppercase verbs to
their handlers; any other method is a `KeyError`. -/
def FTPAdapter.dispatch (env : FtpEnv) (cgi : CgiEnv) (method path : String)
    (request : Request) : Except FtpError Response × List FtpOp :=
  if method = "LIST" then FTPAdapter.list env path request
  else if method = "RETR" then FTPAdapter.retr env path request
  else if method = "STOR" then FTPAdapter.stor env cgi path request
  else if method = "NLST" then FTPAdapter.nlst env path request
  else (.error .keyError, [])

/-- Models `FTPAdapter.send`: extract credentials from the header, then
host/port/path from the URL, connect with the optional timeout, log in
only when credentials were extracted, and dispatch on the request method.
The trace records every connection operation issued before the result —
success or error — is returned. -/
def FTPAdapter.send (env : FtpEnv) (cgi : CgiEnv) (request : Request)
    (timeout : Option Nat) : Except FtpError Response × List FtpOp :=
  match FTPAdapter.get_username_password_from_header request with
  | .error e => (.error e, [])
  | .ok auth =>
    match FTPAdapter.get_host_and_path_from_url request with
    | .error e => (.error e, [])
    | .ok (host, port, path) =>
      match env.connect host port timeout with
      | .error e => (.error e, [.connect host port timeout])
      | .ok _ =>
        match auth with
        | some (u, p) =>
          match env.login u p with
          | .error e => (.error e, [.connect host port timeout, .login u p])
          | .ok _ =>
            ((FTPAdapter.dispatch env cgi request.method path request).1,
             .connect host port timeout :: .login u p ::
               (FTPAdapter.dispatch env cgi request.method path request).2)
        | none =>
          ((FTPAdapter.dispatch env cgi request.method path request).1,
           .connect host port timeout ::
             (FTPAdapter.dispatch env cgi request.method path request).2)

/-- Project the status code out of a response-construction result. -/
def statusOf : Except FtpError Response → Option PyScalar
  | .ok r => some r.status_code
  | .error _ => none

/-- A plain download request with no `Authorization` header. -/
def reqPlain : Request :=
  { method := "LIST", url := "ftp://host:21/dir", headers := [],
    body := "", hooks := [] }

/-- A request whose Basic credentials decode to `u:p:q` — a password
containing a colon (`dTpwOnE=` is base64 for `u:p:q`). -/
def reqColonPass : Request :=
  { method := "RETR", url := "ftp://host:21/f", headers :=
      [("Authorization", "Basic dTpwOnE=")],
    body := "", hooks := [] }

/-- A request using a non-Basic authentication scheme. -/
def reqBearer : Request :=
  { method := "RETR", url := "ftp://host:21/f", headers :=
      [("Authorization", "Bearer eHl6")],
    body := "", hooks := [] }

/-- A request whose `Authorization` header is the bare token `Basic`. -/
def reqBareBasic : Request :=
  { method := "RETR", url := "ftp://host:21/f", headers :=
      [("Authorization", "Basic")],
    body := "", hooks := [] }

/-- A request whose URL has no path at all. -/
def reqNoPath : Request :=
  { method := "LIST", url := "ftp://host", headers := [],
    body := "", hooks := [] }

/-- An upload request carrying a multipart body. -/
def reqUpload : Request :=
  { method := "STOR", url := "ftp://host:21/uploads/report.csv",
    headers := [("Content-Type", "multipart/form-data; boundary=X")],
    body := "--X\r\nnot interpreted by the model\r\n--X--\r\n",
    hooks := [] }

/-- An FTP server on which every operation succeeds: transfers deliver one
chunk of listing data and reply `226`. -/
def envAllOk : FtpEnv :=
  { connect := fun _ _ _ => .ok (),
    login := fun _ _ => .ok (),
    cwd := fun _ => .ok (),
    retr := fun _ => .ok (["total 0\n"], "226 Transfer complete."),
    stor := fun _ _ => .ok "226 Transfer complete." }

/-- An FTP server that rejects every directory change and otherwise
behaves like `envAllOk`. -/
def envCwdFails : FtpEnv :=
  { connect := fun _ _ _ => .ok (),
    login := fun _ _ => .ok (),
    cwd := fun _ => .error (.connError "550 Failed to change directory."),
    retr := fun _ => .ok (["total 0\n"], "226 Transfer complete."),
    stor := fun _ _ => .ok "226 Transfer complete." }

/-- A `cgi` module behaviour whose multipart parser is never consulted
successfully; sufficient for the non-upload verbs. -/
def cgiTrivial : CgiEnv :=
  { parse_header := fun s => (s, []),
    parse_multipart := fun _ _ => .error (.multipartError "no multipart") }

/-- A `cgi` module behaviour that parses the upload body into a single
file field holding two chunks of CSV data. -/
def cgiUpload : CgiEnv :=
  { parse_header := fun s => (s, [("boundary", "X")]),
    parse_multipart := fun _ _ => .ok [("file", ["a,b,c\n", "1,2,3\n"])] }

theorem pySplitWs_empty : pySplitWs "" = [] := rfl

theorem auth_header_ne_empty {h : String} {t : String} {ts : List String}
    (htok : pySplitWs h = t :: ts) : h ≠ "" := by
  intro he
  rw [he, pySplitWs_empty] at htok
  exact List.noConfusion htok

/-- C5: when the `Authorization` header is present and its first
whitespace-delimited token is not `Basic`, credential extraction raises
`AuthError` — a distinct error constructor — and returns no
credentials. -/
theorem C5_non_basic_scheme_raises_auth_error (request : Request)
    (h t : String) (ts : List String)
    (hh : headersGet request.headers "Authorization" = some h)
    (htok : pySplitWs h = t :: ts) (hne : t ≠ "Basic") :
    FTPAdapter.get_username_password_from_header request =
      .error (.authError "Invalid form of Authentication used.") ∧
    ∀ creds, FTPAdapter.get_username_password_from_header request ≠
      .ok creds := by
  have hmain : FTPAdapter.get_username_password_from_header request =
      .error (.authError "Invalid form of Authentication used.") := by
    unfold FTPAdapter.get_username_password_from_header
    rw [hh]
    dsimp only
    rw [if_neg (auth_header_ne_empty htok), htok]
    simp [hne]
  exact ⟨hmain, fun creds hc => by rw [hmain] at hc; exact Except.noConfusion hc⟩

/-- C5 witness: a `Bearer` header triggers the `AuthError`. -/
theorem C5_witness :
    FTPAdapter.get_username_password_from_header reqBearer =
      .error (.authError "Invalid form of Authentication used.") ∧
    ∀ creds, FTPAdapter.get_username_password_from_header reqBearer ≠
      .ok creds :=
  C5_non_basic_scheme_raises_auth_error reqBearer "Bearer eHl6" "Bearer"
    ["eHl6"] rfl rfl (by decide)

/-- C10: when the `Authorization` header tokenises to the single token
`Basic`, credential extraction raises `IndexError` on the missing payload
token, not `AuthError` and not the base64 decode error. -/
theorem C10_bare_basic_raises_index_error (request : Request) (h : String)
    (hh : headersGet request.headers "Authorization" = some h)
    (htok : pySplitWs h = ["Basic"]) :
    FTPAdapter.get_username_password_from_header request =
      .error .indexError := by
  unfold FTPAdapter.get_username_password_from_header
  rw [hh]
  dsimp only
  rw [if_neg (auth_header_ne_empty htok), htok]
  simp

/-- C10 witness: the literal header value `Basic` gives `IndexError`. -/
theorem C10_witness :
    FTPAdapter.get_username_password_from_header reqBareBasic =
      .error .indexError :=
  C10_bare_basic_raises_index_error reqBareBasic "Basic" rfl rfl

/-- C2 counterexample: for the header `Basic dTpwOnE=` — base64 for
`u:p:q`, a password containing a colon — extraction returns
`(u, p)`, truncating the password, not `(u, p:q)` as the claim states. -/
theorem C2_counterexample :
    FTPAdapter.get_username_password_from_header reqColonPass =
      .ok (some ("u", "p")) ∧
    FTPAdapter.get_username_password_from_header reqColonPass ≠
      .ok (some ("u", "p:q")) := by
  have hmain : FTPAdapter.get_username_password_from_header reqColonPass =
      .ok (some ("u", "p")) := rfl
  refine ⟨hmain, fun hc => ?_⟩
  rw [hmain] at hc
  simp at hc

/-- C2 amended: for a header `Basic enc` whose payload decodes to a string
containing at least one colon, extraction splits the decoded string on
every colon and returns the pair of the first two pieces, so a password
containing a colon is truncated at that colon. -/
theorem C2_amended_split_on_every_colon (request : Request)
    (h enc d u p : String) (rest : List String)
    (hh : headersGet request.headers "Authorization" = some h)
    (htok : pySplitWs h = ["Basic", enc])
    (hdec : b64decode enc = some d)
    (hsplit : (splitOnChar ':' d.data).map String.mk = u :: p :: rest) :
    FTPAdapter.get_username_password_from_header request =
      .ok (some (u, p)) := by
  unfold FTPAdapter.get_username_password_from_header
  rw [hh]
  dsimp only
  rw [if_neg (auth_header_ne_empty htok), htok]
  simp [hdec, hsplit]

/-- C2 amended witness: the header of `reqColonPass` decodes to `u:p:q`
and extraction returns `(u, p)`. -/
theorem C2_amended_witness :
    FTPAdapter.get_username_password_from_header reqColonPass =
      .ok (some ("u", "p")) :=
  C2_amended_split_on_every_colon reqColonPass "Basic dTpwOnE=" "dTpwOnE="
    "u:p:q" "u" "p" ["q"] rfl rfl rfl rfl

/-- C8: on a reply string with a leading token, `build_response` hands
back exactly the result of running the response hook chain on the
constructed response, whose raw buffer has been rewound to position
zero. -/
theorem C8_build_response_rewinds_and_uses_hook_result (request : Request)
    (data : Buffer) (code : String) (encoding : Option String)
    (tok : String) (toks : List String)
    (htok : pySplitWs code = tok :: toks) :
    build_response request data code encoding =
      .ok (dispatch_hook request.hooks
        { encoding := encoding,
          raw := { data := data.data, pos := 0 },
          url := request.url,
          request := request.toRequestData,
          status_code := .str tok }) := by
  unfold build_response
  rw [htok]
  rfl

/-- C8 witness: a concrete build through a hook that replaces the
response URL; the rewound pre-hook response is passed to the chain and
the chain's result is returned. -/
theorem C8_witness :
    build_response
        { method := "LIST", url := "ftp://host:21/dir", headers := [],
          body := "",
          hooks := [fun r => some { r with url := "hooked" }] }
        { data := "listing", pos := 7 } "226 Transfer complete."
        (some "ascii") =
      .ok (dispatch_hook
        [fun r => some { r with url := "hooked" }]
        { encoding := some "ascii",
          raw := { data := "listing", pos := 0 },
          url := "ftp://host:21/dir",
          request := { method := "LIST", url := "ftp://host:21/dir",
                       headers := [], body := "" },
          status_code := .str "226" }) :=
  C8_build_response_rewinds_and_uses_hook_result
    { method := "LIST", url := "ftp://host:21/dir", headers := [],
      body := "",
      hooks := [fun r => some { r with url := "hooked" }] }
    { data := "listing", pos := 7 } "226 Transfer complete." (some "ascii")
    "226" ["Transfer", "complete."] rfl

/-- C1: at the reply `226 Transfer complete.` the constructed response
carries the unconverted string token `226` as its status code, which is
not the integer 226 the specification promises. -/
theorem C1_status_code_is_string_token_not_integer :
    statusOf (build_response reqPlain Buffer.empty "226 Transfer complete."
        (some "ascii")) = some (.str "226") ∧
    PyScalar.str "226" ≠ PyScalar.int 226 := by
  exact ⟨rfl, by decide⟩

/-- C9: when the URL is `ftp://host` with no path separator at all, the
URL split raises `IndexError` on `path[0]` and `send` propagates it with
an empty trace: no connection is ever opened. -/
theorem C9_empty_path_fails_before_connect (env : FtpEnv) (cgi : CgiEnv)
    (request : Request) (timeout : Option Nat) (host : String)
    (a : Option (String × String))
    (hurl : request.url = "ftp://" ++ host)
    (hslash : ∀ c ∈ host.data, c ≠ '/')
    (hauth : FTPAdapter.get_username_password_from_header request = .ok a) :
    FTPAdapter.get_host_and_path_from_url request = .error .indexError ∧
    FTPAdapter.send env cgi request timeout = (.error .indexError, []) := by
  have hurl2 : request.url =
      String.mk ('f' :: 't' :: 'p' :: ':' :: '/' :: '/' :: host.data) := by
    rw [hurl]; rfl
  have hnil : (urlparse_ftp request.url).path.data = [] := by
    rw [hurl2]
    show List.dropWhile (fun c => decide (c ≠ '/')) host.data = []
    exact List.dropWhile_eq_nil_iff.mpr (fun c hc => by simpa using hslash c hc)
  have hget : FTPAdapter.get_host_and_path_from_url request =
      .error .indexError := by
    unfold FTPAdapter.get_host_and_path_from_url
    rw [hnil]
  refine ⟨hget, ?_⟩
  unfold FTPAdapter.send
  rw [hauth, hget]

/-- C9 witness: the concrete URL `ftp://host` produces the index error
and an empty operation trace. -/
theorem C9_witness :
    FTPAdapter.get_host_and_path_from_url reqNoPath = .error .indexError ∧
    FTPAdapter.send envAllOk cgiTrivial reqNoPath none =
      (.error .indexError, []) :=
  C9_empty_path_fails_before_connect envAllOk cgiTrivial reqNoPath none
    "host" none rfl (by decide) rfl

theorem list_close_once (env : FtpEnv) (path : String) (request : Request)
    (r : Response) (tr : List FtpOp)
    (h : FTPAdapter.list env path request = (.ok r, tr)) :
    tr.countP FtpOp.isClose = 1 := by
  unfold FTPAdapter.list at h
  split at h
  · simp at h
  · split at h
    · simp at h
    · split at h
      · simp at h
      · simp only [Prod.mk.injEq] at h
        rw [← h.2]
        rfl

theorem retr_close_once (env : FtpEnv) (path : String) (request : Request)
    (r : Response) (tr : List FtpOp)
    (h : FTPAdapter.retr env path request = (.ok r, tr)) :
    tr.countP FtpOp.isClose = 1 := by
  unfold FTPAdapter.retr at h
  split at h
  · simp at h
  · split at h
    · simp at h
    · simp only [Prod.mk.injEq] at h
      rw [← h.2]
      rfl

theorem stor_close_once (env : FtpEnv) (cgi : CgiEnv) (path : String)
    (request : Request) (r : Response) (tr : List FtpOp)
    (h : FTPAdapter.stor env cgi path request = (.ok r, tr)) :
    tr.countP FtpOp.isClose = 1 := by
  unfold FTPAdapter.stor at h
  split at h
  · simp at h
  · split at h
    · simp at h
    · split at h
      · simp at h
      · split at h
        · simp at h
        · simp only [Prod.mk.injEq] at h
          rw [← h.2]
          rfl

theorem nlst_close_once (env : FtpEnv) (path : String) (request : Request)
    (r : Response) (tr : List FtpOp)
    (h : FTPAdapter.nlst env path request = (.ok r, tr)) :
    tr.countP FtpOp.isClose = 1 := by
  unfold FTPAdapter.nlst at h
  split at h
  · simp at h
  · split at h
    · simp at h
    · split at h
      · simp at h
      · simp only [Prod.mk.injEq] at h
        rw [← h.2]
        rfl

theorem dispatch_close_once (env : FtpEnv) (cgi : CgiEnv)
    (method path : String) (request : Request) (r : Response)
    (tr : List FtpOp)
    (h : FTPAdapter.dispatch env cgi method path request = (.ok r, tr)) :
    tr.countP FtpOp.isClose = 1 := by
  unfold FTPAdapter.dispatch at h
  split_ifs at h
  · exact list_close_once env path request r tr h
  · exact retr_close_once env path request r tr h
  · exact stor_close_once env cgi path request r tr h
  · exact nlst_close_once env path request r tr h
  · simp at h

/-- C3 amended: whenever `send` succeeds — the handler ran to completion —
the connection is closed exactly once.  On failure the close is not
guaranteed: the counterexample shows a failing directory change surfacing
with the connection never closed (though it can still happen — STOR's
close precedes its response construction). -/
theorem C3_amended_close_exactly_once_on_success (env : FtpEnv)
    (cgi : CgiEnv) (request : Request) (timeout : Option Nat) (r : Response)
    (tr : List FtpOp)
    (h : FTPAdapter.send env cgi request timeout = (.ok r, tr)) :
    tr.countP FtpOp.isClose = 1 := by
  unfold FTPAdapter.send at h
  split at h
  · simp at h
  · split at h
    · simp at h
    · rename_i host port path heq2
      split at h
      · simp at h
      · split at h
        · rename_i u p
          split at h
          · simp at h
          · simp only [Prod.mk.injEq] at h
            obtain ⟨h1, h2⟩ := h
            have hd : FTPAdapter.dispatch env cgi request.method path request =
                (.ok r,
                 (FTPAdapter.dispatch env cgi request.method path request).2) := by
              rw [← h1]
            rw [← h2]
            simp only [List.countP_cons, FtpOp.isClose]
            rw [dispatch_close_once env cgi request.method path request r _ hd]
            simp
        · simp only [Prod.mk.injEq] at h
          obtain ⟨h1, h2⟩ := h
          have hd : FTPAdapter.dispatch env cgi request.method path request =
              (.ok r,
               (FTPAdapter.dispatch env cgi request.method path request).2) := by
            rw [← h1]
          rw [← h2]
          simp only [List.countP_cons, FtpOp.isClose]
          rw [dispatch_close_once env cgi request.method path request r _ hd]
          simp

/-- C3 counterexample: against a server that rejects the directory
change, `send` of a LIST request surfaces the error after connect and cwd
only — the connection is never closed (close count 0, not 1). -/
theorem C3_counterexample :
    FTPAdapter.send envCwdFails cgiTrivial reqPlain none =
      (.error (.connError "550 Failed to change directory."),
       [.connect (some "host") (some 21) none, .cwd "dir"]) ∧
    (FTPAdapter.send envCwdFails cgiTrivial reqPlain none).2.countP
      FtpOp.isClose = 0 :=
  ⟨rfl, rfl⟩

/-- C3 witness: a fully successful LIST `send` closes exactly once. -/
theorem C3_witness :
    FTPAdapter.send envAllOk cgiTrivial reqPlain none =
      (.ok { encoding := some "ascii",
             raw := { data := "total 0\n", pos := 0 },
             url := "ftp://host:21/dir",
             request := reqPlain.toRequestData,
             status_code := .str "226" },
       [.connect (some "host") (some 21) none, .cwd "dir",
        .retrbinary "LIST", .close]) ∧
    List.countP FtpOp.isClose
      [.connect (some "host") (some 21) none, .cwd "dir",
       .retrbinary "LIST", .close] = 1 :=
  ⟨rfl, C3_amended_close_exactly_once_on_success envAllOk cgiTrivial reqPlain
    none _ _ rfl⟩

theorem list_no_login (env : FtpEnv) (path : String) (request : Request) :
    (FTPAdapter.list env path request).2.countP FtpOp.isLogin = 0 := by
  unfold FTPAdapter.list
  split
  · rfl
  · split
    · rfl
    · split <;> rfl

theorem retr_no_login (env : FtpEnv) (path : String) (request : Request) :
    (FTPAdapter.retr env path request).2.countP FtpOp.isLogin = 0 := by
  unfold FTPAdapter.retr
  split
  · rfl
  · split <;> rfl

theorem stor_no_login (env : FtpEnv) (cgi : CgiEnv) (path : String)
    (request : Request) :
    (FTPAdapter.stor env cgi path request).2.countP FtpOp.isLogin = 0 := by
  unfold FTPAdapter.stor
  split
  · rfl
  · split
    · rfl
    · split
      · rfl
      · split <;> rfl

theorem nlst_no_login (env : FtpEnv) (path : String) (request : Request) :
    (FTPAdapter.nlst env path request).2.countP FtpOp.isLogin = 0 := by
  unfold FTPAdapter.nlst
  split
  · rfl
  · split
    · rfl
    · split <;> rfl

theorem dispatch_no_login (env : FtpEnv) (cgi : CgiEnv)
    (method path : String) (request : Request) :
    (FTPAdapter.dispatch env cgi method path request).2.countP
      FtpOp.isLogin = 0 := by
  unfold FTPAdapter.dispatch
  split_ifs
  · exact list_no_login env path request
  · exact retr_no_login env path request
  · exact stor_no_login env cgi path request
  · exact nlst_no_login env path request
  · rfl

/-- C4 amended: with no `Authorization` header, credential extraction
returns `None` and `send` performs no login call at all — it dispatches to
the verb handler on a connection that was never logged in, rather than
logging in anonymously. -/
theorem C4_amended_no_auth_header_skips_login (env : FtpEnv) (cgi : CgiEnv)
    (request : Request) (timeout : Option Nat)
    (hh : headersGet request.headers "Authorization" = none) :
    FTPAdapter.get_username_password_from_header request = .ok none ∧
    (FTPAdapter.send env cgi request timeout).2.countP FtpOp.isLogin = 0 := by
  have hauth : FTPAdapter.get_username_password_from_header request =
      .ok none := by
    unfold FTPAdapter.get_username_password_from_header
    rw [hh]
  refine ⟨hauth, ?_⟩
  unfold FTPAdapter.send
  rw [hauth]
  dsimp only
  split
  · rfl
  · split
    · rfl
    · simp [List.countP_cons, FtpOp.isLogin, dispatch_no_login]

/-- C4 witness: the concrete no-auth LIST request yields `None`
credentials and a login-free trace. -/
theorem C4_witness :
    FTPAdapter.get_username_password_from_header reqPlain = .ok none ∧
    (FTPAdapter.send envAllOk cgiTrivial reqPlain none).2.countP
      FtpOp.isLogin = 0 :=
  C4_amended_no_auth_header_skips_login envAllOk cgiTrivial reqPlain none rfl

/-- C4 counterexample: for the no-auth LIST request against a fully
successful server, the complete operation trace is connect, cwd,
retrieve, close — it contains no login operation, so no anonymous login
is performed before dispatch. -/
theorem C4_counterexample :
    FTPAdapter.get_username_password_from_header reqPlain = .ok none ∧
    FTPAdapter.send envAllOk cgiTrivial reqPlain none =
      (.ok { encoding := some "ascii",
             raw := { data := "total 0\n", pos := 0 },
             url := "ftp://host:21/dir",
             request := reqPlain.toRequestData,
             status_code := .str "226" },
       [.connect (some "host") (some 21) none, .cwd "dir",
        .retrbinary "LIST", .close]) ∧
    List.countP FtpOp.isLogin
      [.connect (some "host") (some 21) none, .cwd "dir",
       .retrbinary "LIST", .close] = 0 :=
  ⟨rfl, rfl, rfl⟩

/-- C7: for a STOR request whose multipart payload extraction succeeds
and whose directory change and store succeed, the handler splits the path
into directory and filename, changes to the directory, streams the
extracted payload under `STOR filename`, closes the connection and
returns a response whose body buffer is empty and rewound and whose
status is the leading token of the server reply. -/
theorem C7_stor_uploads_payload_and_returns_empty_body (env : FtpEnv)
    (cgi : CgiEnv) (path : String) (request : Request) (buf : Buffer)
    (dir fname code tok : String) (toks : List String)
    (hmp : parse_multipart_files cgi request = .ok buf)
    (hsplit : os_path_split path = (dir, fname))
    (hcwd : env.cwd dir = .ok ())
    (hstor : env.stor ("STOR " ++ fname) buf.data = .ok code)
    (htok : pySplitWs code = tok :: toks)
    (hhooks : request.hooks = []) :
    FTPAdapter.stor env cgi path request =
      (.ok { encoding := none,
             raw := { data := "", pos := 0 },
             url := request.url,
             request := request.toRequestData,
             status_code := .str tok },
       [.cwd dir, .storbinary ("STOR " ++ fname) buf.data, .close]) := by
  unfold FTPAdapter.stor
  rw [hmp]
  dsimp only
  rw [hsplit]
  dsimp only
  rw [hcwd, hstor]
  dsimp only
  unfold build_binary_response build_response
  rw [htok]
  dsimp only
  rw [hhooks]
  rfl

/-- C7 witness: uploading the parsed CSV payload to
`uploads/report.csv`. -/
theorem C7_witness :
    FTPAdapter.stor envAllOk cgiUpload "uploads/report.csv" reqUpload =
      (.ok { encoding := none,
             raw := { data := "", pos := 0 },
             url := reqUpload.url,
             request := reqUpload.toRequestData,
             status_code := .str "226" },
       [.cwd "uploads",
        .storbinary ("STOR " ++ "report.csv") "a,b,c\n1,2,3\n", .close]) :=
  C7_stor_uploads_payload_and_returns_empty_body envAllOk cgiUpload
    "uploads/report.csv" reqUpload { data := "a,b,c\n1,2,3\n", pos := 0 }
    "uploads" "report.csv" "226 Transfer complete." "226"
    ["Transfer", "complete."] rfl rfl rfl rfl rfl rfl
